import Mathlib

/-!
Verification of the `astra` in-process actor runtime (Rust) against its
natural-language specification.

The development shallowly embeds the core of the repository:

* `src/actor_system.rs` — the `Message` envelope, the per-actor mailbox/task
  loop spawned by `add_actor`, `send_message`, and system-wide `shutdown`;
* `src/snapshot_actor.rs` — the `SnapshotActor` state machine
  (`new`/`save_state`/`load_state`/`set_state`/`get_state`), its periodic
  snapshot loop (`start_snapshot_task`, a `tokio::select!` race between an
  interval tick and a `watch` shutdown signal) and `shutdown`;
* `src/supervision.rs` — `Supervisor` and `handle_failure`;
* `src/backends/storage.rs` and `src/backends/file.rs` — the storage backend
  capability set and its file-backed instance.

Rust strings manipulated character-wise by the snapshot machinery are
modelled as `List Char`; effectful Rust methods on `&mut self` are modelled
as state-passing functions returning the updated value together with an
`Except` result; `println!` diagnostics that matter to the specification are
modelled as returned log strings.
-/

namespace Astra

/-- Rust `String` payloads handled character-wise, modelled as the sequence
of characters. -/
abbrev RStr := List Char

/-- Rust `str::splitn(2, sep)` helper: splits at the FIRST occurrence of
`sep`, returning the part before it and, when `sep` occurs, the whole
remainder (which may itself contain further occurrences of `sep`). -/
def splitFirst (sep : Char) : RStr → RStr × Option RStr
  | [] => ([], none)
  | c :: rest =>
    if c = sep then ([], some rest)
    else
      let r := splitFirst sep rest
      (c :: r.1, r.2)

/-- Rust `data.splitn(2, sep).collect::<Vec<_>>()` as used in
`src/snapshot_actor.rs` (`load_state`, line 90): one part when `sep` is
absent, otherwise exactly two parts split at the first `sep`. -/
def splitn2 (sep : Char) (s : RStr) : List RStr :=
  match splitFirst sep s with
  | (p, none) => [p]
  | (p0, some p1) => [p0, p1]

/-- The storage-backend capability set of `src/backends/storage.rs`
(`StorageBackend`): `write`, `read`, `cleanup` over an explicit backend
state `σ` (the trait methods take `&mut self`; a failing call returns the
error and leaves the modelled state with the caller). -/
structure Backend (σ : Type) where
  write : RStr → σ → Except String σ
  read : σ → Except String RStr
  cleanup : σ → Except String σ

/-- The `FileBackend` of `src/backends/file.rs`: the backend state is the
file contents (`none` once `cleanup` has removed the file). `write` fully
overwrites the contents, `read` returns them (erroring when the file is
absent), `cleanup` deletes the file. Its `read` returns exactly the last
written string. -/
def fileBackend : Backend (Option RStr) where
  write := fun data _ => Except.ok (some data)
  read := fun s =>
    match s with
    | some content => Except.ok content
    | none => Except.error ("No such file")
  cleanup := fun _ => Except.ok none

/-- A backend whose every operation fails, an instance of the
`StorageBackend` trait used to observe error propagation. -/
def failBackend : Backend Unit where
  write := fun _ _ => Except.error ("disk full")
  read := fun _ => Except.error ("disk full")
  cleanup := fun _ => Except.error ("disk full")

/-- `DataActor` of `src/data_actor.rs`: wraps exactly one backend state. -/
structure DataActor (σ : Type) where
  backend : σ

/-- `DataActor::write_to_backend` (`src/data_actor.rs`, line 71): forwards
to the backend's `write`, threading the backend state. -/
def DataActor.write_to_backend (B : Backend σ) (d : DataActor σ) (data : RStr) :
    DataActor σ × Except String Unit :=
  match B.write data d.backend with
  | Except.ok b => (⟨b⟩, Except.ok ())
  | Except.error e => (d, Except.error e)

/-- `DataActor::read_from_backend` (`src/data_actor.rs`, line 76): forwards
to the backend's `read` (which does not change the modelled state). -/
def DataActor.read_from_backend (B : Backend σ) (d : DataActor σ) :
    Except String RStr :=
  B.read d.backend

/-- `SnapshotActor` of `src/snapshot_actor.rs` (lines 57–64): in-memory
`state`, the wrapped `DataActor`, the `actor_id`, and the `watch` shutdown
channel pair modelled by whether the signal has been sent. -/
structure SnapshotActor (σ : Type) where
  state : RStr
  data_actor : DataActor σ
  actor_id : RStr
  shutdownSignaled : Bool

/-- `SnapshotActor::new` (`src/snapshot_actor.rs`, lines 67–78): fresh
instance with empty `state`, a `DataActor` wrapping the given backend, the
given `actor_id`, and a fresh (unsignalled) shutdown channel. -/
def SnapshotActor.new (actor_id : RStr) (backend : σ) : SnapshotActor σ :=
  { state := []
    data_actor := ⟨backend⟩
    actor_id := actor_id
    shutdownSignaled := false }

/-- `SnapshotActor::save_state` (`src/snapshot_actor.rs`, lines 81–85):
formats `"{actor_id}:{state}"` and writes it through the wrapped
`DataActor`; a backend error is propagated by `?` with the actor value
unchanged. -/
def SnapshotActor.save_state (B : Backend σ) (a : SnapshotActor σ) :
    SnapshotActor σ × Except String Unit :=
  let data := a.actor_id ++ ':' :: a.state
  match DataActor.write_to_backend B a.data_actor data with
  | (d, Except.ok _) => ({ a with data_actor := d }, Except.ok ())
  | (_, Except.error e) => (a, Except.error e)

/-- `SnapshotActor::load_state` (`src/snapshot_actor.rs`, lines 88–95):
reads the backend, splits the persisted string with `splitn(2, ':')`, and
only when there are exactly two parts and the first equals `actor_id`
replaces the in-memory state with the second part; in every other non-error
case it returns `Ok` leaving the state untouched. -/
def SnapshotActor.load_state (B : Backend σ) (a : SnapshotActor σ) :
    SnapshotActor σ × Except String Unit :=
  match DataActor.read_from_backend B a.data_actor with
  | Except.error e => (a, Except.error e)
  | Except.ok data =>
    match splitn2 ':' data with
    | [p0, p1] =>
      if p0 = a.actor_id then ({ a with state := p1 }, Except.ok ())
      else (a, Except.ok ())
    | _ => (a, Except.ok ())

/-- `SnapshotActor::set_state` (`src/snapshot_actor.rs`, lines 98–100). -/
def SnapshotActor.set_state (a : SnapshotActor σ) (s : RStr) : SnapshotActor σ :=
  { a with state := s }

/-- `SnapshotActor::get_state` (`src/snapshot_actor.rs`, lines 103–105). -/
def SnapshotActor.get_state (a : SnapshotActor σ) : RStr :=
  a.state

/-- `SnapshotActor::shutdown` (`src/snapshot_actor.rs`, lines 128–130):
sends on the `watch` channel; idempotent (the modelled flag just becomes
`true`). -/
def SnapshotActor.shutdown (a : SnapshotActor σ) : SnapshotActor σ :=
  { a with shutdownSignaled := true }

/-- A concrete `SnapshotActor` over the file backend, with a colon-free
`actor_id`, used to witness the snapshot round trip. -/
def sampleActor : SnapshotActor (Option RStr) :=
  { state := ['s', '1']
    data_actor := ⟨none⟩
    actor_id := ['i', 'd']
    shutdownSignaled := false }

/-- A concrete `SnapshotActor` whose `actor_id` itself contains a colon
(`"a:b"`), constructible through `SnapshotActor::new`, which takes an
arbitrary string id. -/
def colonIdActor : SnapshotActor (Option RStr) :=
  { state := ['c']
    data_actor := ⟨none⟩
    actor_id := ['a', ':', 'b']
    shutdownSignaled := false }

/-- A concrete `SnapshotActor` whose backend holds the persisted string
`"id:v:w"` and whose own id is `"id"`, used to witness `load_state`. -/
def loadedActor : SnapshotActor (Option RStr) :=
  { state := []
    data_actor := ⟨some (['i', 'd'] ++ ':' :: ['v', ':', 'w'])⟩
    actor_id := ['i', 'd']
    shutdownSignaled := false }

/-- The `Message` envelope of `src/actor_system.rs` (lines 69–73): a user
payload or the shutdown marker. -/
inductive Message (M : Type) where
  | Regular (payload : M)
  | Shutdown
deriving DecidableEq

/-- The bound of the per-actor mailbox, `mpsc::channel(100)` in
`src/actor_system.rs` line 92. A full tokio channel makes `send` await
(backpressure), never fail, so the queue below is modelled unbounded and a
send is an append; only a CLOSED channel (receiver dropped) makes `send`
return an error. -/
def mailboxCapacity : Nat := 100

/-- One actor's mailbox: the FIFO queue of envelopes delivered but not yet
consumed by its task, plus whether the channel has been closed by the
receiving side. -/
structure MailboxState (M : Type) where
  queue : List (Message M)
  closed : Bool
deriving DecidableEq

/-- `Sender::send` of the tokio mpsc channel as used by `send_message` and
`shutdown`: enqueue on an open channel, error on a closed one. -/
def mailboxSend (mb : MailboxState M) (msg : Message M) :
    MailboxState M × Except String Unit :=
  if mb.closed then (mb, Except.error ("channel closed"))
  else ({ mb with queue := mb.queue ++ [msg] }, Except.ok ())

/-- `ActorSystem` of `src/actor_system.rs` (lines 75–78): the registry
mapping actor names to their mailbox send-handles (modelled by the mailbox
states, keyed uniquely as in `HashMap`), together with a count of the tasks
spawned so far by `task::spawn`. -/
structure ActorSystem (M : Type) where
  actors : List (String × MailboxState M)
  tasksSpawned : Nat

/-- `HashMap::get` over the modelled registry. -/
def assocLookup : List (String × MailboxState M) → String → Option (MailboxState M)
  | [], _ => none
  | (k, v) :: rest, name => if k = name then some v else assocLookup rest name

/-- Replacement of the entry for an existing key, used when a send mutates
a mailbox. -/
def assocUpdate : List (String × MailboxState M) → String → MailboxState M →
    List (String × MailboxState M)
  | [], _, _ => []
  | (k, v) :: rest, name, mb =>
    if k = name then (k, mb) :: rest else (k, v) :: assocUpdate rest name mb

/-- `ActorSystem::new` (`src/actor_system.rs`, lines 81–85). -/
def ActorSystem.empty (M : Type) : ActorSystem M :=
  { actors := [], tasksSpawned := 0 }

/-- `ActorSystem::add_actor` (`src/actor_system.rs`, lines 87–104): creates
a fresh bounded channel, spawns the mailbox/task loop, and inserts the
send-handle under `name` (`HashMap::insert` overwrites a duplicate key). -/
def ActorSystem.add_actor (sys : ActorSystem M) (name : String) : ActorSystem M :=
  { actors := (name, { queue := [], closed := false })
        :: sys.actors.filter (fun p => p.1 != name)
    tasksSpawned := sys.tasksSpawned + 1 }

/-- `ActorSystem::send_message` (`src/actor_system.rs`, lines 106–115):
looks the name up in the registry; when present wraps the payload as
`Message::Regular` and sends it to that mailbox (mapping a send failure to
a formatted delivery error), otherwise returns the formatted
`"Actor {name} not found"` error. It spawns nothing and touches no other
state. -/
def ActorSystem.send_message (sys : ActorSystem M) (actor_name : String)
    (message : M) : ActorSystem M × Except String Unit :=
  match assocLookup sys.actors actor_name with
  | some mb =>
    match mailboxSend mb (Message.Regular message) with
    | (mb', Except.ok _) =>
      ({ sys with actors := assocUpdate sys.actors actor_name mb' }, Except.ok ())
    | (_, Except.error e) =>
      (sys, Except.error (("Failed to send message: ") ++ e))
  | none => (sys, Except.error (("Actor ") ++ actor_name ++ (" not found")))

/-- `ActorSystem::shutdown` (`src/actor_system.rs`, lines 117–123): for
every registered actor, sends one `Message::Shutdown` to its mailbox; a
failed send is logged (`"Failed to send shutdown signal to actor …"`) and
the iteration continues with the remaining actors. Returns the new
registry state and the emitted log lines. -/
def ActorSystem.shutdown (sys : ActorSystem M) : ActorSystem M × List String :=
  ({ sys with
      actors := sys.actors.map
        (fun p => (p.1, (mailboxSend p.2 Message.Shutdown).1)) },
   sys.actors.filterMap (fun p =>
     match (mailboxSend p.2 Message.Shutdown).2 with
     | Except.error e =>
       some (("Failed to send shutdown signal to actor ") ++ p.1 ++ (": ") ++ e)
     | Except.ok _ => none))

/-- The `Actor` trait of `src/actor_system.rs` (lines 53–67): `receive`
consumes one envelope (possibly failing with a descriptive error) and
`cleanup` releases resources; both act on the actor's own state `α`. -/
structure ActorImpl (α M : Type) where
  receive : α → Message M → α × Except String Unit
  cleanup : α → α

/-- Observable outcome of one run of the spawned task loop: the final actor
state, the envelopes dispatched to `receive` in order, the error log lines,
and how many times `cleanup` ran. -/
structure LoopResult (α M : Type) where
  actor : α
  processed : List (Message M)
  logs : List String
  cleanups : Nat

/-- The task loop spawned by `add_actor` (`src/actor_system.rs`, lines
94–101), run over the finite sequence of envelopes the channel delivers
before closing: `while let Some(message) = rx.recv().await` dispatches
EVERY received envelope to `receive` — there is no break on
`Message::Shutdown` — logging (not propagating) a receive error, and after
the loop exits (channel closed) calls `cleanup` once. -/
def actorTaskLoop (A : ActorImpl α M) : α → List (Message M) → LoopResult α M
  | a, [] => { actor := A.cleanup a, processed := [], logs := [], cleanups := 1 }
  | a, msg :: rest =>
    let step := A.receive a msg
    let r := actorTaskLoop A step.1 rest
    { actor := r.actor
      processed := msg :: r.processed
      logs := (match step.2 with
        | Except.error e => [("Error processing message: ") ++ e]
        | Except.ok _ => []) ++ r.logs
      cleanups := r.cleanups }

/-- A trivial actor (akin to the repository's `SimpleActor` test actor)
whose `receive` always succeeds. -/
def unitActor : ActorImpl Unit String where
  receive := fun _ _ => ((), Except.ok ())
  cleanup := fun a => a

/-- An actor whose `receive` always fails, to observe the loop's error
path. -/
def failingActor : ActorImpl Unit String where
  receive := fun _ _ => ((), Except.error ("boom"))
  cleanup := fun a => a

/-- `SupervisionStrategy` of `src/supervision.rs` (lines 7–11). -/
inductive SupervisionStrategy where
  | Restart
  | Ignore
  | Escalate
deriving DecidableEq

/-- `Supervisor` of `src/supervision.rs` (lines 3–5): holds only the
strategy fixed at construction. -/
structure Supervisor where
  strategy : SupervisionStrategy

/-- `Supervisor::new` (`src/supervision.rs`, lines 14–16). -/
def Supervisor.new (strategy : SupervisionStrategy) : Supervisor :=
  ⟨strategy⟩

/-- `Supervisor::handle_failure` (`src/supervision.rs`, lines 18–32): the
Rust function returns `()` — its only observable effect is the `println!`
line, modelled as the second component. -/
def Supervisor.handle_failure (sup : Supervisor) (actor_name error : String) :
    Unit × String :=
  match sup.strategy with
  | SupervisionStrategy.Restart =>
    ((), ("Restarting actor ") ++ actor_name ++ (" due to error: ") ++ error)
  | SupervisionStrategy.Ignore =>
    ((), ("Ignoring error for actor ") ++ actor_name ++ (": ") ++ error)
  | SupervisionStrategy.Escalate =>
    ((), ("Escalating error for actor ") ++ actor_name ++ (": ") ++ error)

/-- Modelled from the spec: the `SupervisionDirective` enumeration
`{Restart, Ignore, Escalate}` the specification says `handle_failure`
produces. The repository's code defines no such type (its
`handle_failure` returns unit); the type exists here only to state the
claim about it. -/
inductive SupervisionDirective where
  | Restart
  | Ignore
  | Escalate
deriving DecidableEq

/-- Modelled from the spec: the directive a given strategy is supposed to
produce uniformly for every actor. -/
def directiveOfStrategy : SupervisionStrategy → SupervisionDirective
  | SupervisionStrategy.Restart => SupervisionDirective.Restart
  | SupervisionStrategy.Ignore => SupervisionDirective.Ignore
  | SupervisionStrategy.Escalate => SupervisionDirective.Escalate

/-- The two fixed text slots of the log line `handle_failure` emits for a
given strategy, read off `src/supervision.rs` lines 20–29. -/
def branchStrings : SupervisionStrategy → String × String
  | SupervisionStrategy.Restart => ("Restarting actor ", " due to error: ")
  | SupervisionStrategy.Ignore => ("Ignoring error for actor ", ": ")
  | SupervisionStrategy.Escalate => ("Escalating error for actor ", ": ")

/-- Which branch of the `tokio::select!` in `start_snapshot_task`
(`src/snapshot_actor.rs`, lines 112–124) the scheduler completes when both
are ready simultaneously. The macro is used WITHOUT the `biased;`
modifier, so tokio picks the branch at random; a run of the loop is
therefore parameterized by the sequence of such choices. -/
inductive SelChoice where
  | tick
  | shutdown

/-- The loop of `start_snapshot_task` (`src/snapshot_actor.rs`, lines
108–125) under an explicit time model: `interval(60)` completes its FIRST
tick immediately (at the loop's start time, the initial `nextTick`) and
each subsequent tick 60 time units after the previous one;
`shutdown_rx.changed()` is ready from `sigTime` on (`none` when
`signal_shutdown` is never called). Each iteration the select completes at
the earlier of the two readiness times: a strictly earlier shutdown breaks
out of the loop, a strictly earlier tick runs `save_state` (logging, not
propagating, its errors) and reschedules the next tick, and on simultaneous
readiness the oracle choice decides. Returns the final actor and the break
time, or `none` when the choice budget is exhausted before the loop
breaks. -/
def snapshotLoopRun (B : Backend σ) (sigTime : Option Nat) :
    List SelChoice → SnapshotActor σ → Nat → Nat →
    Option (SnapshotActor σ × Nat)
  | [], _, _, _ => none
  | c :: rest, a, now, nextTick =>
    match sigTime with
    | none =>
      snapshotLoopRun B none rest (SnapshotActor.save_state B a).1 nextTick
        (nextTick + 60)
    | some t =>
      let sReady := max now t
      if sReady < nextTick then some (a, sReady)
      else if nextTick < sReady then
        snapshotLoopRun B (some t) rest (SnapshotActor.save_state B a).1
          nextTick (nextTick + 60)
      else
        match c with
        | SelChoice.shutdown => some (a, sReady)
        | SelChoice.tick =>
          snapshotLoopRun B (some t) rest (SnapshotActor.save_state B a).1
            nextTick (nextTick + 60)

/-- A one-actor registry holding an open mailbox under the name `"a"`. -/
def sampleSystem : ActorSystem String :=
  { actors := [(("a" : String), { queue := [], closed := false })]
    tasksSpawned := 1 }

/-- A two-actor registry: `"a"` has an open mailbox, `"b"` a closed one
(its receiving task is gone), the configuration of concrete scenario B. -/
def sampleSystemB : ActorSystem String :=
  { actors := [(("a" : String), { queue := [], closed := false }),
               (("b" : String), { queue := [], closed := true })]
    tasksSpawned := 2 }

theorem splitFirst_append_cons (sep : Char) (p s : RStr) (h : sep ∉ p) :
    splitFirst sep (p ++ sep :: s) = (p, some s) := by
  induction p with
  | nil => simp [splitFirst]
  | cons c cs ih =>
    have hc : ¬ c = sep := fun hcs => h (by simp [hcs])
    have hcs' : sep ∉ cs := fun hm => h (List.mem_cons_of_mem _ hm)
    simp [splitFirst, hc, ih hcs']

theorem splitn2_append_cons (sep : Char) (p s : RStr) (h : sep ∉ p) :
    splitn2 sep (p ++ sep :: s) = [p, s] := by
  simp [splitn2, splitFirst_append_cons sep p s h]

theorem splitFirst_no_sep (sep : Char) (s : RStr) (h : sep ∉ s) :
    splitFirst sep s = (s, none) := by
  induction s with
  | nil => simp [splitFirst]
  | cons c cs ih =>
    have hc : ¬ c = sep := fun hcs => h (by simp [hcs])
    have hcs' : sep ∉ cs := fun hm => h (List.mem_cons_of_mem _ hm)
    simp [splitFirst, hc, ih hcs']

theorem splitn2_no_sep (sep : Char) (s : RStr) (h : sep ∉ s) :
    splitn2 sep s = [s] := by
  simp [splitn2, splitFirst_no_sep sep s h]

theorem save_state_fileBackend (a : SnapshotActor (Option RStr)) :
    SnapshotActor.save_state fileBackend a
      = ({ a with data_actor := ⟨some (a.actor_id ++ ':' :: a.state)⟩ },
         Except.ok ()) := rfl

/-- C9: a `SnapshotActor` freshly constructed by `new(actor_id, backend)`
has `state` equal to the empty string, so `get_state()` on a fresh instance
returns the empty string before any `set_state` or successful
`load_state`. -/
theorem new_state_empty (σ : Type) (actor_id : RStr) (backend : σ) :
    (SnapshotActor.new actor_id backend).state = []
      ∧ SnapshotActor.get_state (SnapshotActor.new actor_id backend) = [] :=
  ⟨rfl, rfl⟩

/-- C10: `save_state()` modifies no observable field of the
`SnapshotActor` — `state` and `actor_id` are unchanged by the call both
when the backend write succeeds and when it fails, and a backend error is
propagated with the whole actor value (in-memory state included)
unchanged. -/
theorem save_state_frame (σ : Type) (B : Backend σ) (a : SnapshotActor σ) :
    ((SnapshotActor.save_state B a).1.state = a.state
      ∧ (SnapshotActor.save_state B a).1.actor_id = a.actor_id)
    ∧ (∀ e : String,
        B.write (a.actor_id ++ ':' :: a.state) a.data_actor.backend
          = Except.error e →
        SnapshotActor.save_state B a = (a, Except.error e)) := by
  constructor
  · unfold SnapshotActor.save_state DataActor.write_to_backend
    cases hw : B.write (a.actor_id ++ ':' :: a.state) a.data_actor.backend <;>
      simp [hw]
  · intro e he
    unfold SnapshotActor.save_state DataActor.write_to_backend
    simp [he]

/-- Witness for C10 at a concrete failing backend: the error is propagated
and the actor value is returned unchanged. -/
theorem save_state_frame_witness :
    SnapshotActor.save_state failBackend (SnapshotActor.new ['a'] ())
      = (SnapshotActor.new ['a'] (), Except.error ("disk full")) :=
  (save_state_frame Unit failBackend (SnapshotActor.new ['a'] ())).2
    ("disk full") rfl

/-- C2 (amended): for every `SnapshotActor` whose `actor_id` contains no
colon, `save_state()` followed by `load_state()` by any actor with the same
`actor_id` over the same file backend (whose `read` returns the last
written string) restores an identical `state` value; and `load_state()` on
a persisted string whose actor-id prefix (the part before the first colon)
differs from this instance's `actor_id` leaves `state` unchanged. -/
theorem save_load_roundtrip (a1 : SnapshotActor (Option RStr))
    (h : ':' ∉ a1.actor_id) :
    (∀ a2 : SnapshotActor (Option RStr),
      a2.actor_id = a1.actor_id →
      a2.data_actor = (SnapshotActor.save_state fileBackend a1).1.data_actor →
      (SnapshotActor.load_state fileBackend a2).1.state = a1.state)
    ∧ (∀ (a : SnapshotActor (Option RStr)) (pre rest : RStr),
      a.data_actor.backend = some (pre ++ ':' :: rest) → ':' ∉ pre →
      pre ≠ a.actor_id →
      (SnapshotActor.load_state fileBackend a).1.state = a.state) := by
  constructor
  · intro a2 hid hda
    have hb : a2.data_actor.backend = some (a1.actor_id ++ ':' :: a1.state) := by
      rw [hda, save_state_fileBackend]
    simp [SnapshotActor.load_state, DataActor.read_from_backend, fileBackend,
      hb, splitn2_append_cons ':' a1.actor_id a1.state h, hid]
  · intro a pre rest hb hpre hne
    simp [SnapshotActor.load_state, DataActor.read_from_backend, fileBackend,
      hb, splitn2_append_cons ':' pre rest hpre, hne]

/-- Witness for C2 at a concrete colon-free actor id: saving `"s1"` under
id `"id"` and loading on a fresh instance with the same id restores
`"s1"`. -/
theorem save_load_roundtrip_witness :
    (SnapshotActor.load_state fileBackend
      (SnapshotActor.new (['i', 'd'])
        ((SnapshotActor.save_state fileBackend sampleActor).1.data_actor.backend))).1.state
      = ['s', '1'] :=
  (save_load_roundtrip sampleActor (by decide)).1
    (SnapshotActor.new (['i', 'd'])
      ((SnapshotActor.save_state fileBackend sampleActor).1.data_actor.backend))
    rfl rfl

/-- Counterexample to C2 as stated: it quantifies over every
`SnapshotActor`, but for an `actor_id` that itself contains a colon
(`"a:b"`, state `"c"`), `save_state()` succeeds and writes `"a:b:c"`, yet
`load_state()` on a fresh instance with the same `actor_id` splits at the
FIRST colon, compares `"a"` with `"a:b"`, and silently leaves the fresh
empty state in place — the saved state `"c"` is not restored. -/
theorem save_load_roundtrip_cex :
    (SnapshotActor.save_state fileBackend colonIdActor).2 = Except.ok ()
    ∧ (SnapshotActor.load_state fileBackend
        (SnapshotActor.new (['a', ':', 'b'])
          ((SnapshotActor.save_state fileBackend colonIdActor).1.data_actor.backend))).1.state
        = []
    ∧ colonIdActor.state ≠ [] :=
  ⟨rfl, rfl, by decide⟩

/-- C4: `load_state()` splits the persisted string at the first colon only;
when the part before the first colon equals this instance's `actor_id` the
in-memory state is replaced by the remainder (which may itself contain
colons); otherwise — no colon present, or a differing first part — the
state is left untouched and the call still returns `Ok` (a silent no-op,
not an error). -/
theorem load_state_first_colon (a : SnapshotActor (Option RStr)) (d : RStr)
    (h : a.data_actor.backend = some d) :
    (∀ p0 p1, splitn2 ':' d = [p0, p1] → p0 = a.actor_id →
      SnapshotActor.load_state fileBackend a
        = ({ a with state := p1 }, Except.ok ()))
    ∧ (∀ p0 p1, splitn2 ':' d = [p0, p1] → p0 ≠ a.actor_id →
      SnapshotActor.load_state fileBackend a = (a, Except.ok ()))
    ∧ (':' ∉ d →
      SnapshotActor.load_state fileBackend a = (a, Except.ok ()))
    ∧ (∀ pre rest, ':' ∉ pre → d = pre ++ ':' :: rest →
      splitn2 ':' d = [pre, rest]) := by
  refine ⟨?_, ?_, ?_, ?_⟩
  · intro p0 p1 hsplit heq
    simp [SnapshotActor.load_state, DataActor.read_from_backend, fileBackend,
      h, hsplit, heq]
  · intro p0 p1 hsplit hne
    simp [SnapshotActor.load_state, DataActor.read_from_backend, fileBackend,
      h, hsplit, hne]
  · intro hno
    simp [SnapshotActor.load_state, DataActor.read_from_backend, fileBackend,
      h, splitn2_no_sep ':' d hno]
  · intro pre rest hpre hd
    rw [hd]
    exact splitn2_append_cons ':' pre rest hpre

/-- Witness for C4 at the persisted string `"id:v:w"` and matching id
`"id"`: the state becomes `"v:w"` — the remainder after the FIRST colon,
colons included — and the call returns `Ok`. -/
theorem load_state_first_colon_witness :
    SnapshotActor.load_state fileBackend loadedActor
      = ({ loadedActor with state := ['v', ':', 'w'] }, Except.ok ()) :=
  (load_state_first_colon loadedActor (['i', 'd'] ++ ':' :: ['v', ':', 'w'])
      rfl).1
    (['i', 'd']) (['v', ':', 'w']) (by decide) rfl

theorem actorTaskLoop_processed (A : ActorImpl α M) (a : α)
    (msgs : List (Message M)) :
    (actorTaskLoop A a msgs).processed = msgs := by
  induction msgs generalizing a with
  | nil => rfl
  | cons m rest ih => simp [actorTaskLoop, ih]

theorem actorTaskLoop_cleanups (A : ActorImpl α M) (a : α)
    (msgs : List (Message M)) :
    (actorTaskLoop A a msgs).cleanups = 1 := by
  induction msgs generalizing a with
  | nil => rfl
  | cons m rest ih => simp [actorTaskLoop, ih]

/-- C1 (amended): the task loop spawned by `add_actor` dispatches to
`receive` EVERY envelope delivered on its channel, in order, whether or not
a `Shutdown` envelope occurs among them — taking a `Shutdown` off the queue
does not terminate the loop — and `cleanup` runs exactly once, after the
channel closes (all senders dropped), not after a `Shutdown` is
processed. -/
theorem task_loop_drains_all (α M : Type) (A : ActorImpl α M) (a : α)
    (msgs : List (Message M)) :
    (actorTaskLoop A a msgs).processed = msgs
    ∧ (actorTaskLoop A a msgs).cleanups = 1 :=
  ⟨actorTaskLoop_processed A a msgs, actorTaskLoop_cleanups A a msgs⟩

/-- Counterexample to C1 as stated: enqueue a `Shutdown` and then a regular
envelope. The loop in `src/actor_system.rs` lines 94–101 has no break on
`Message::Shutdown`, so the regular envelope enqueued AFTER the `Shutdown`
is still dispatched to `receive` (it appears in the processed sequence
after the `Shutdown`), refuting "the task loop processes no subsequently
enqueued envelope". -/
theorem task_loop_shutdown_cex :
    (actorTaskLoop unitActor () [Message.Shutdown, Message.Regular ("x")]).processed
      = [Message.Shutdown, Message.Regular ("x")]
    ∧ Message.Regular ("x")
        ∈ ((actorTaskLoop unitActor ()
            [Message.Shutdown, Message.Regular ("x")]).processed).drop 1 := by
  refine ⟨rfl, ?_⟩
  simp [actorTaskLoop, unitActor]

/-- C8: an envelope whose `receive` returns an error is logged and the
loop continues — the error never terminates the loop, every envelope
(including each one after the failing envelope) is still dispatched to
`receive`, and `cleanup` still runs exactly once at channel closure. -/
theorem receive_error_continues (α M : Type) (A : ActorImpl α M) (a : α)
    (msg : Message M) (rest : List (Message M)) (e : String)
    (herr : (A.receive a msg).2 = Except.error e) :
    (actorTaskLoop A a (msg :: rest)).logs
      = (("Error processing message: ") ++ e)
        :: (actorTaskLoop A (A.receive a msg).1 rest).logs
    ∧ (actorTaskLoop A a (msg :: rest)).processed = msg :: rest
    ∧ (actorTaskLoop A a (msg :: rest)).cleanups = 1 := by
  refine ⟨?_, ?_, ?_⟩
  · simp [actorTaskLoop, herr]
  · exact actorTaskLoop_processed A a (msg :: rest)
  · exact actorTaskLoop_cleanups A a (msg :: rest)

/-- Witness for C8: a concrete actor whose `receive` always fails still has
both of its two envelopes dispatched, logs the failure, and cleans up
once. -/
theorem receive_error_continues_witness :
    (actorTaskLoop failingActor ()
        [Message.Regular ("m"), Message.Regular ("n")]).logs
      = (("Error processing message: ") ++ ("boom"))
        :: (actorTaskLoop failingActor
            ((failingActor.receive () (Message.Regular ("m"))).1)
            [Message.Regular ("n")]).logs
    ∧ (actorTaskLoop failingActor ()
        [Message.Regular ("m"), Message.Regular ("n")]).processed
      = [Message.Regular ("m"), Message.Regular ("n")]
    ∧ (actorTaskLoop failingActor ()
        [Message.Regular ("m"), Message.Regular ("n")]).cleanups = 1 :=
  receive_error_continues Unit String failingActor () (Message.Regular ("m"))
    [Message.Regular ("n")] ("boom") rfl

theorem assocLookup_assocUpdate (l : List (String × MailboxState M))
    (n : String) (mb mb' : MailboxState M) (h : assocLookup l n = some mb) :
    assocLookup (assocUpdate l n mb') n = some mb' := by
  induction l with
  | nil => simp [assocLookup] at h
  | cons p rest ih =>
    obtain ⟨k, v⟩ := p
    by_cases hk : k = n
    · simp [assocLookup, assocUpdate, hk]
    · simp [assocLookup, assocUpdate, hk] at h ⊢
      exact ih h

/-- C5: for a name absent from the registry, `send_message` returns the
`"Actor {name} not found"` error, spawns no task and leaves the whole
system state (registry included) unchanged; for a registered name (whose
mailbox is open — while an entry exists the registry itself retains a
send-handle, so the channel cannot have closed), it wraps the payload as
`Message::Regular`, appends it to that actor's mailbox queue and returns
`Ok`. -/
theorem send_message_spec (M : Type) (sys : ActorSystem M) (n : String)
    (m : M) :
    (assocLookup sys.actors n = none →
      ActorSystem.send_message sys n m
        = (sys, Except.error (("Actor ") ++ n ++ (" not found")))
      ∧ (ActorSystem.send_message sys n m).1.tasksSpawned = sys.tasksSpawned)
    ∧ (∀ mb : MailboxState M, assocLookup sys.actors n = some mb →
      mb.closed = false →
      (ActorSystem.send_message sys n m).2 = Except.ok ()
      ∧ assocLookup (ActorSystem.send_message sys n m).1.actors n
          = some { queue := mb.queue ++ [Message.Regular m], closed := false }) := by
  constructor
  · intro h
    simp [ActorSystem.send_message, h]
  · intro mb h hcl
    constructor
    · simp [ActorSystem.send_message, h, mailboxSend, hcl]
    · simp [ActorSystem.send_message, h, mailboxSend, hcl]
      exact assocLookup_assocUpdate sys.actors n mb
        { queue := mb.queue ++ [Message.Regular m], closed := false } h

/-- Witness for C5 on a concrete one-actor registry: sending to the absent
name `"missing"` yields the not-found error with the system unchanged, and
sending `"hello"` to the registered `"a"` enqueues
`Message::Regular("hello")` (concrete scenario A). -/
theorem send_message_spec_witness :
    ActorSystem.send_message sampleSystem ("missing") ("hello")
      = (sampleSystem,
         Except.error (("Actor ") ++ ("missing") ++ (" not found")))
    ∧ (ActorSystem.send_message sampleSystem ("a") ("hello")).2 = Except.ok ()
    ∧ assocLookup
        (ActorSystem.send_message sampleSystem ("a") ("hello")).1.actors ("a")
      = some { queue := [] ++ [Message.Regular ("hello")], closed := false } :=
  ⟨((send_message_spec String sampleSystem ("missing") ("hello")).1 rfl).1,
   ((send_message_spec String sampleSystem ("a") ("hello")).2
      { queue := [], closed := false } rfl rfl).1,
   ((send_message_spec String sampleSystem ("a") ("hello")).2
      { queue := [], closed := false } rfl rfl).2⟩

/-- C7: `shutdown` enqueues one `Shutdown` envelope to every registered
mailbox, best-effort: every registered OPEN mailbox receives exactly one
appended `Message::Shutdown` regardless of the state of the other actors,
and a failed delivery (closed mailbox) is logged with the
`"Failed to send shutdown signal to actor …"` line while the iteration
continues. -/
theorem shutdown_all_best_effort (M : Type) (sys : ActorSystem M)
    (n : String) (mb : MailboxState M) (hmem : (n, mb) ∈ sys.actors) :
    (mb.closed = false →
      (n, { queue := mb.queue ++ [Message.Shutdown], closed := false })
        ∈ (ActorSystem.shutdown sys).1.actors)
    ∧ (mb.closed = true →
      (n, mb) ∈ (ActorSystem.shutdown sys).1.actors
      ∧ (("Failed to send shutdown signal to actor ") ++ n ++ (": ")
            ++ ("channel closed"))
          ∈ (ActorSystem.shutdown sys).2) := by
  constructor
  · intro hcl
    have h1 := List.mem_map_of_mem
      (fun p : String × MailboxState M =>
        (p.1, (mailboxSend p.2 Message.Shutdown).1)) hmem
    simpa [ActorSystem.shutdown, mailboxSend, hcl] using h1
  · intro hcl
    constructor
    · have h1 := List.mem_map_of_mem
        (fun p : String × MailboxState M =>
          (p.1, (mailboxSend p.2 Message.Shutdown).1)) hmem
      simpa [ActorSystem.shutdown, mailboxSend, hcl] using h1
    · refine List.mem_filterMap.mpr ⟨(n, mb), hmem, ?_⟩
      simp [mailboxSend, hcl]

/-- Witness for C7 on concrete scenario B: with `"a"` open and `"b"`
closed, `"a"`'s mailbox still receives its `Shutdown` envelope and the
failure for `"b"` is logged — one actor's failure does not block the
other's delivery. -/
theorem shutdown_all_best_effort_witness :
    ((("a" : String),
        ({ queue := [] ++ [Message.Shutdown], closed := false } :
          MailboxState String))
      ∈ (ActorSystem.shutdown sampleSystemB).1.actors)
    ∧ (("Failed to send shutdown signal to actor ") ++ ("b") ++ (": ")
          ++ ("channel closed"))
        ∈ (ActorSystem.shutdown sampleSystemB).2 :=
  ⟨(shutdown_all_best_effort String sampleSystemB ("a")
      { queue := [], closed := false } (List.mem_cons_self _ _)).1 rfl,
   ((shutdown_all_best_effort String sampleSystemB ("b")
      { queue := [], closed := true }
      (List.mem_cons_of_mem _ (List.mem_cons_self _ _))).2 rfl).2⟩

/-- Counterexample to C3 as stated: the Rust `handle_failure`
(`src/supervision.rs`, line 18) returns `()` — the code defines no
`SupervisionDirective` value at all — so its return value is the same for
every strategy and no reading of it can recover the strategy-determined
directive in `{Restart, Ignore, Escalate}` that the claim says is
returned. -/
theorem handle_failure_cex :
    (Supervisor.handle_failure ⟨SupervisionStrategy.Restart⟩ ("a") ("e")).1
      = (Supervisor.handle_failure ⟨SupervisionStrategy.Escalate⟩ ("a") ("e")).1
    ∧ directiveOfStrategy SupervisionStrategy.Restart
        ≠ directiveOfStrategy SupervisionStrategy.Escalate
    ∧ ¬ ∃ g : Unit → SupervisionDirective,
        ∀ (s : SupervisionStrategy) (a e : String),
          g (Supervisor.handle_failure ⟨s⟩ a e).1 = directiveOfStrategy s := by
  refine ⟨rfl, by decide, ?_⟩
  rintro ⟨g, hg⟩
  have h1 := hg SupervisionStrategy.Restart ("a") ("e")
  have h2 := hg SupervisionStrategy.Escalate ("a") ("e")
  exact absurd (h1.symm.trans h2) (by decide)

/-- C3 (amended): `handle_failure(actor_name, error)` returns unit (the
code defines no directive return value); its observable behaviour — the
log line it emits — selects its branch purely by the strategy fixed at
`Supervisor` construction: the two fixed text slots of the line are a
function of the strategy alone, identical for all actor names and error
descriptions. -/
theorem handle_failure_uniform (s : SupervisionStrategy) (a e : String) :
    (Supervisor.handle_failure ⟨s⟩ a e).1 = ()
    ∧ (Supervisor.handle_failure ⟨s⟩ a e).2
        = (branchStrings s).1 ++ a ++ (branchStrings s).2 ++ e := by
  cases s <;> exact ⟨rfl, rfl⟩

/-- C6 (amended): once `signal_shutdown()` has fired (at time `t`, no later
than the loop's start time `now`), the periodic task terminates at time
`now` itself for EVERY scheduler choice sequence — it never waits for the
60-unit tick interval: either the first select takes the shutdown branch
immediately, or the simultaneously ready first (immediate) tick is taken,
one save runs, and the next iteration (whose tick is 60 units away while
the signal is still ready) breaks. On simultaneous readiness either branch
may be taken, since the `tokio::select!` carries no `biased;` modifier. -/
theorem snapshot_shutdown_prompt (σ : Type) (B : Backend σ)
    (a : SnapshotActor σ) (t now : Nat) (h : t ≤ now)
    (c1 c2 : SelChoice) (rest : List SelChoice) :
    snapshotLoopRun B (some t) (c1 :: c2 :: rest) a now now = some (a, now)
    ∨ snapshotLoopRun B (some t) (c1 :: c2 :: rest) a now now
        = some ((SnapshotActor.save_state B a).1, now) := by
  have hmax : max now t = now := Nat.max_eq_left h
  cases c1 with
  | shutdown =>
    left
    simp [snapshotLoopRun, hmax]
  | tick =>
    right
    simp [snapshotLoopRun, hmax]

/-- Witness for C6 at a concrete run: signal fired at time 0, loop started
at time 0 over the file backend; for the choice sequence that favours the
tick first, the loop still breaks at time 0. -/
theorem snapshot_shutdown_prompt_witness :
    snapshotLoopRun fileBackend (some 0) [SelChoice.tick, SelChoice.shutdown]
        (SnapshotActor.new ['a'] none) 0 0
      = some (SnapshotActor.new ['a'] none, 0)
    ∨ snapshotLoopRun fileBackend (some 0) [SelChoice.tick, SelChoice.shutdown]
        (SnapshotActor.new ['a'] none) 0 0
      = some ((SnapshotActor.save_state fileBackend
          (SnapshotActor.new ['a'] none)).1, 0) :=
  snapshot_shutdown_prompt (Option RStr) fileBackend
    (SnapshotActor.new ['a'] none) 0 0 (Nat.le_refl 0)
    SelChoice.tick SelChoice.shutdown []

/-- Counterexample to C6 as stated: the `tokio::select!` in
`start_snapshot_task` has no `biased;` modifier, so on simultaneous
readiness the branch is chosen at random. Here the signal fired at time 0
and the first interval tick is also ready at time 0 (tokio's first tick
completes immediately): under the admissible scheduler choice `tick`, the
TICK branch runs — a save executes, moving the backend from `none` to
`some "a:"` — rather than the shutdown branch the claim promises. -/
theorem snapshot_shutdown_cex :
    snapshotLoopRun fileBackend (some 0) [SelChoice.tick, SelChoice.shutdown]
        (SnapshotActor.new ['a'] none) 0 0
      = some ((SnapshotActor.save_state fileBackend
          (SnapshotActor.new ['a'] none)).1, 0)
    ∧ (SnapshotActor.save_state fileBackend
        (SnapshotActor.new ['a'] none)).1.data_actor.backend
      = some (['a', ':'])
    ∧ (SnapshotActor.new ['a'] (none : Option RStr)).data_actor.backend
      = none :=
  ⟨rfl, rfl, rfl⟩

end Astra
